import Mathlib

/-
Verification of the mqtt-pipeline middleware engine.

Shallow embedding of:
  src/pipeline/pipeline.py         (Pipeline, build_middleware_stack, process)
  src/pipeline/middleware.py       (Middleware base class contract)
  src/mqtt_pipeline/middleware/rest_put.py      (RestPutMiddleware)
  src/mqtt_pipeline/middleware/tlon_format.py   (TlonFormatMiddleware)
  src/mqtt_pipeline/middleware/meshtastic/main.py (MeshtasticMiddleware)

Python exceptions are modelled with Except PyErr; the process-wide mutable
counter PAYLOAD_ID is threaded explicitly as an Option Nat state (none models
the uninitialized global, which raises NameError on increment); the HTTP sink
is a function from the attempt index to a response; observable side effects
(session.put calls, time.sleep calls) are collected in an event list.
-/

/-- An inbound MQTT message: a topic string and a payload. The payload is
modelled as the string rendering used by the code (tlon_format interpolates
the payload into an f-string). -/
structure MqttMessage where
  topic : String
  payload : String
  deriving DecidableEq

/-- The Python exceptions that the modelled code paths can raise:
KeyError from dict subscription, NameError from reading an unassigned
global, TypeError from range(None). -/
inductive PyErr
  | keyError (key : String)
  | nameError (globalName : String)
  | typeError
  deriving DecidableEq

/-- What one call of session.put produces, as seen by rest_put.py:
either an HTTP response with a status code, or a
requests.exceptions.RequestException (connection error / timeout). -/
inductive SinkResp
  | status (code : Nat)
  | transportError
  deriving DecidableEq

/-- The terminal log classification of send_to_rest_endpoint:
info "Successfully sent" (2xx), warning "Failed to send" (non-2xx),
or the final error "Failed to send data to endpoint after N attempts". -/
inductive SendOutcome
  | success
  | rejected
  | exhausted
  deriving DecidableEq

/-- Observable side effects of send_to_rest_endpoint: a session.put call
(with the attempt index from Python range, the request URL and body, and the
response the sink produced), or a time.sleep(retry_delay) call. -/
inductive SendEvent (β : Type)
  | put (attempt : Nat) (url : String) (body : β) (resp : SinkResp)
  | sleep (delay : Nat)
  deriving DecidableEq

/-- The RestPutMiddleware slice of the configuration
(config["RestPutMiddleware"]).  rest_put.py reads host, path, headers,
timeout, session, retries, retry_delay via config.get.  retries is kept
optional because config.get returns None for a missing key and
range(None) raises TypeError; the other keys are modelled as present
(their absence does not raise on the verified paths). -/
structure RestConfig where
  host : String
  path : String
  headers : List (String × String)
  timeout : Nat
  retries : Option Nat
  retry_delay : Nat
  deriving DecidableEq

/-- One entry of urbit_channel_map: the per-topic destination record,
holding the Urbit channel nest read by tlon_format. -/
structure ChannelEntry where
  nest : String
  deriving DecidableEq

/-- The TlonFormatMiddleware slice of the configuration: the ship id and
the topic-to-destination mapping urbit_channel_map. -/
structure TlonConfig where
  urbit_id : String
  urbit_channel_map : List (String × ChannelEntry)
  deriving DecidableEq

/-- The formatted Urbit poke produced by tlon_format, flattening the nested
dict literal of tlon_format.py: the constant action/app/mark strings, the
sequence id, the ship (urbit_id with tilde stripped), the destination nest
from urbit_channel_map, the author, the sent timestamp, and the two inline
content strings (the message text and the "via topic" signature). -/
structure UrbitPayload where
  id : Nat
  action : String
  ship : String
  app : String
  mark : String
  nest : String
  author : String
  sent : Nat
  message : String
  signature : String
  deriving DecidableEq

/-- Boolean test that an Except value is ok (the call returned normally,
with no Python exception propagating). -/
def isOkExcept {ε α : Type} : Except ε α → Bool
  | Except.ok _ => true
  | Except.error _ => false

/-- The retry loop of RestPutMiddleware.send_to_rest_endpoint
(rest_put.py lines 35-78), iterating over the Python range(retries).
Per attempt: session.put; on a status response, log success (2xx) or the
rejection warning (non-2xx) and return None immediately; on a
RequestException, log, and if attempt < retries - 1 sleep retry_delay and
continue; when the range is exhausted, log the final failure and return
None implicitly. -/
def sendLoop {β : Type} (sink : Nat → SinkResp) (url : String) (body : β)
    (retries retry_delay : Nat) :
    List Nat → List (SendEvent β) × SendOutcome × Option β
  | [] => ([], SendOutcome.exhausted, none)
  | attempt :: rest =>
    match sink attempt with
    | SinkResp.status c =>
        ([SendEvent.put attempt url body (SinkResp.status c)],
         if 200 ≤ c ∧ c < 300 then SendOutcome.success else SendOutcome.rejected,
         none)
    | SinkResp.transportError =>
        let tail := sendLoop sink url body retries retry_delay rest
        if attempt < retries - 1 then
          (SendEvent.put attempt url body SinkResp.transportError ::
             SendEvent.sleep retry_delay :: tail.1, tail.2)
        else
          (SendEvent.put attempt url body SinkResp.transportError :: tail.1, tail.2)

/-- RestPutMiddleware.send_to_rest_endpoint (rest_put.py lines 13-78).
The for statement evaluates range(config.get("retries")) once; a missing
retries key gives range(None), a TypeError raised before any attempt.
Otherwise the loop runs over range(retries) with the request URL
f-string host/path.  The result carries the put/sleep event list, the
terminal log classification, and the Python return value (always None:
every return statement in the function is bare). -/
def send_to_rest_endpoint {β : Type} (cfg : RestConfig) (sink : Nat → SinkResp) (body : β) :
    Except PyErr (List (SendEvent β) × SendOutcome × Option β) :=
  match cfg.retries with
  | none => Except.error PyErr.typeError
  | some k =>
      Except.ok (sendLoop sink (cfg.host ++ "/" ++ cfg.path) body k cfg.retry_delay
        (List.range k))

/-- RestPutMiddleware.__call__ (rest_put.py lines 9-11):
result = send_to_rest_endpoint(middleware_config, data);
return get_response(result, ...).  The next handler receives the return
value of send_to_rest_endpoint; the put/sleep events and the outcome are
log-level observations, not part of the forwarded value. -/
def RestPutMiddleware.call {β ρ : Type} (cfg : RestConfig) (sink : Nat → SinkResp)
    (body : β) (next : Option β → ρ) :
    Except PyErr (List (SendEvent β) × SendOutcome × ρ) :=
  match send_to_rest_endpoint cfg sink body with
  | Except.error e => Except.error e
  | Except.ok (events, outcome, result) => Except.ok (events, outcome, next result)

/-- Python str.replace("~", "") as applied to urbit_id in tlon_format.py
line 92: removes every tilde character from the string (for a
single-character pattern and empty replacement, replace is exactly this
filter).  Defined directly so that it evaluates by kernel reduction. -/
def stripTilde (s : String) : String :=
  String.mk (s.data.filter (fun ch => ch != '~'))

/-- TlonFormatMiddleware.tlon_format (tlon_format.py lines 57-127), with the
global PAYLOAD_ID threaded as an Option Nat state and int(time.time()) passed
as now.  channel = data.topic; message = f-string of the payload;
signature = "via " ++ channel.  PAYLOAD_ID += 1 raises NameError when the
global was never assigned (the module does not initialize it; its docstring
requires initialization elsewhere); the increment happens before the dict
literal is evaluated, so the counter advances even when the later
urbit_channel_map[channel] subscription raises KeyError for an unmapped
topic.  On success the payload carries id = the incremented counter,
ship = urbit_id with "~" removed, nest from the map entry, and
sent = now * 1000. -/
def tlon_format (cfg : TlonConfig) (data : MqttMessage) (st : Option Nat) (now : Nat) :
    Option Nat × Except PyErr UrbitPayload :=
  match st with
  | none => (none, Except.error (PyErr.nameError "PAYLOAD_ID"))
  | some pid =>
      match List.lookup data.topic cfg.urbit_channel_map with
      | none => (some (pid + 1), Except.error (PyErr.keyError data.topic))
      | some entry =>
          (some (pid + 1), Except.ok
            { id := pid + 1
              action := "poke"
              ship := stripTilde cfg.urbit_id
              app := "channels"
              mark := "channel-action"
              nest := entry.nest
              author := cfg.urbit_id
              sent := now * 1000
              message := data.payload
              signature := "via " ++ data.topic })

/-- TlonFormatMiddleware.__call__ (tlon_format.py lines 29-55):
result = tlon_format(middleware_config, data); then
kwargs["path_override"] = urbit_channel_map[data.topic]; then
get_response(result, **kwargs).  Exceptions from either the formatting or
the map subscription propagate uncaught; on success the next handler
receives the formatted payload together with the path_override entry. -/
def TlonFormatMiddleware.call {ρ : Type} (cfg : TlonConfig) (data : MqttMessage)
    (st : Option Nat) (now : Nat) (next : UrbitPayload → ChannelEntry → ρ) :
    Option Nat × Except PyErr ρ :=
  match tlon_format cfg data st now with
  | (st1, Except.error e) => (st1, Except.error e)
  | (st1, Except.ok payload) =>
      match List.lookup data.topic cfg.urbit_channel_map with
      | none => (st1, Except.error (PyErr.keyError data.topic))
      | some entry => (st1, Except.ok (next payload entry))

/-- Sequential processing of a list of messages through tlon_format within
one process lifetime: the PAYLOAD_ID state is threaded from one call to the
next, and the per-message results are collected in order. -/
def tlon_format_run (cfg : TlonConfig) (now : Nat) :
    Option Nat → List MqttMessage → List (Except PyErr UrbitPayload) × Option Nat
  | st, [] => ([], st)
  | st, m :: rest =>
      let step := tlon_format cfg m st now
      let tail := tlon_format_run cfg now step.1 rest
      (step.2 :: tail.1, tail.2)

/-- The sequence identifiers (the id field) of the payloads actually
produced by a run, in assignment order; calls that raised are skipped. -/
def okIds (rs : List (Except PyErr UrbitPayload)) : List Nat :=
  rs.filterMap (fun r => match r with
    | Except.ok p => some p.id
    | Except.error _ => none)

/-- The Meshtastic ServiceEnvelope as MeshtasticMiddleware observes it:
either the freshly initialized empty envelope, or an envelope filled by a
successful ParseFromString. -/
inductive Envelope
  | empty
  | parsed (value : String)
  deriving DecidableEq

/-- MeshtasticMiddleware.parse (meshtastic/main.py lines 53-83).  The
protobuf decoder is passed as a function: some v models ParseFromString
succeeding and filling the envelope, none models it raising.  The code
initializes an empty envelope, attempts the parse inside try/except
(logging the exception on failure), and returns the envelope
unconditionally — on a failed parse the empty envelope is returned, not a
sentinel dropped result. -/
def MeshtasticMiddleware.parse (decode : String → Option String) (data : MqttMessage) :
    Envelope :=
  match decode data.payload with
  | some v => Envelope.parsed v
  | none => Envelope.empty

/-- MeshtasticMiddleware.__call__ (meshtastic/main.py lines 35-51):
result = parse(data); return get_response(result, ...).  The next handler
is invoked unconditionally with whatever parse returned. -/
def MeshtasticMiddleware.call {ρ : Type} (decode : String → Option String)
    (next : Envelope → ρ) (data : MqttMessage) : ρ :=
  next (MeshtasticMiddleware.parse decode data)

/-- A middleware class as Pipeline.build_middleware_stack consumes it: a
constructor that takes the next handler (get_response) and yields a
handler. -/
def MWClass (D R : Type) : Type := (D → R) → D → R

/-- Pipeline.build_middleware_stack (pipeline.py lines 87-110): start from
the innermost core handler and walk the configured class list in reverse,
wrapping each class around the handler built so far. -/
def build_middleware_stack {D R : Type} (classes : List (MWClass D R)) (core : D → R) :
    D → R :=
  classes.reverse.foldl (fun handler c => c handler) core

/-- The transform-middleware shape shared by the concrete middleware
classes (Middleware.__call__, middleware.py lines 56-97): transform the
request with f, pass the result to the next handler, return its
response. -/
def mkTransformMW {D R : Type} (f : D → D) : MWClass D R :=
  fun next data => next (f data)

/-- Pipeline.process_core (pipeline.py lines 112-129): logs a debug line
and returns the data unchanged. -/
def Pipeline.process_core {D : Type} : D → D := fun data => data

/-- The mutable attributes of a Pipeline instance (pipeline.py lines
51-60): the built middleware_stack (None until built), the list of
middleware classes, and the config dict (modelled as a key-value list). -/
structure PipelineState (D : Type) where
  middleware_stack : Option (D → D)
  middleware_classes : List (MWClass D D)
  config : List (String × String)

/-- Pipeline.add_middleware (pipeline.py lines 70-85): appends the class to
middleware_classes; the built stack, if any, is left untouched. -/
def Pipeline.add_middleware {D : Type} (st : PipelineState D) (c : MWClass D D) :
    PipelineState D :=
  { st with middleware_classes := st.middleware_classes ++ [c] }

/-- Pipeline.process (pipeline.py lines 131-158): if middleware_stack is
None, build it from the current middleware_classes; then invoke the stack
on the data.  Returns the chain result together with the updated
instance state. -/
def Pipeline.process {D : Type} (st : PipelineState D) (data : D) : D × PipelineState D :=
  match st.middleware_stack with
  | some chain => (chain data, st)
  | none =>
      let chain := build_middleware_stack st.middleware_classes Pipeline.process_core
      (chain data, { st with middleware_stack := some chain })

/-- A mutation performed on a Pipeline instance after construction: an
add_middleware call or a reassignment of the config attribute. -/
inductive PipeOp (D : Type)
  | addMiddleware (c : MWClass D D)
  | setConfig (cfg : List (String × String))

/-- Apply one pipeline mutation. -/
def applyOp {D : Type} (st : PipelineState D) : PipeOp D → PipelineState D
  | PipeOp.addMiddleware c => Pipeline.add_middleware st c
  | PipeOp.setConfig cfg => { st with config := cfg }

/-- Apply a sequence of pipeline mutations in order. -/
def applyOps {D : Type} (st : PipelineState D) (ops : List (PipeOp D)) : PipelineState D :=
  ops.foldl applyOp st

/-- Pipeline.process on a pipeline whose middleware_classes are
[TlonFormatMiddleware, RestPutMiddleware]: the built stack has the Tlon
stage outermost, the REST delivery stage as its get_response, and
process_core innermost (returning its input unchanged).  The request-id
generation and the kwargs threading of process are not observable in the
modelled results and are omitted. -/
def process_tlon_rest (tlonCfg : TlonConfig) (restCfg : RestConfig)
    (sink : Nat → SinkResp) (st : Option Nat) (now : Nat) (data : MqttMessage) :
    Option Nat × Except PyErr (List (SendEvent UrbitPayload) × SendOutcome × Option UrbitPayload) :=
  match TlonFormatMiddleware.call tlonCfg data st now
      (fun payload _entry => RestPutMiddleware.call restCfg sink payload (fun r => r)) with
  | (st1, Except.error e) => (st1, Except.error e)
  | (st1, Except.ok inner) => (st1, inner)

/-- The global configuration mapping, carved into per-middleware slices by
class name, as Middleware.__init__ reads it
(middleware.py lines 21-45: middleware_config = config.get(ClassName, {})). -/
structure GlobalConfig where
  tlonFormatSlice : TlonConfig
  restPutSlice : RestConfig
  deriving DecidableEq

/-- Building the [TlonFormatMiddleware, RestPutMiddleware] stack
(pipeline.py lines 87-110 together with middleware.py lines 21-54):
each middleware class is instantiated with get_response, config, logger;
Middleware.__init__ only extracts its own slice with config.get and
performs no validation of required keys, so construction never raises. -/
def build_tlon_rest (cfg : GlobalConfig) : Except PyErr (TlonConfig × RestConfig) :=
  Except.ok (cfg.tlonFormatSlice, cfg.restPutSlice)

/-- The event pattern of a run in which every attempt hits a transport
error: n put calls at consecutive attempt indices starting at i, with one
sleep between consecutive attempts and no sleep after the last. -/
def transportFailEvents {β : Type} (url : String) (body : β) (d : Nat) :
    Nat → Nat → List (SendEvent β)
  | _, 0 => []
  | i, 1 => [SendEvent.put i url body SinkResp.transportError]
  | i, n + 2 =>
      SendEvent.put i url body SinkResp.transportError :: SendEvent.sleep d ::
        transportFailEvents url body d (i + 1) (n + 1)

/-- The event pattern of m transport-failed attempts starting at index i,
each followed by a sleep (the prefix of a run that later receives an HTTP
status). -/
def transportRetryEvents {β : Type} (url : String) (body : β) (d : Nat) :
    Nat → Nat → List (SendEvent β)
  | _, 0 => []
  | i, m + 1 =>
      SendEvent.put i url body SinkResp.transportError :: SendEvent.sleep d ::
        transportRetryEvents url body d (i + 1) m

/-- Sample topic-to-destination configuration: topic sensors/temp mapped to
destination nest D, for the ship ~zod. -/
def tlonCfgD : TlonConfig :=
  { urbit_id := "~zod"
    urbit_channel_map := [("sensors/temp", { nest := "D" })] }

/-- Sample delivery configuration: endpoint host/path, three attempts, one
second between retries. -/
def restCfgD : RestConfig :=
  { host := "host"
    path := "path"
    headers := []
    timeout := 5
    retries := some 3
    retry_delay := 1 }

/-- Sample delivery configuration from which the required retries key is
missing (config.get("retries") returns None). -/
def restCfgNoRetries : RestConfig :=
  { restCfgD with retries := none }

/-- Sample global configuration whose RestPutMiddleware slice is missing
the retries key. -/
def cfgMissingRetries : GlobalConfig :=
  { tlonFormatSlice := tlonCfgD
    restPutSlice := restCfgNoRetries }

/-- A sink that answers every put with HTTP 200. -/
def sink200 : Nat → SinkResp := fun _ => SinkResp.status 200

/-- A sink that answers every put with HTTP 404. -/
def sink404 : Nat → SinkResp := fun _ => SinkResp.status 404

/-- A sink whose every put fails with a transport error. -/
def sinkFail : Nat → SinkResp := fun _ => SinkResp.transportError

/-- The end-to-end sample message: topic sensors/temp, payload 23.5. -/
def msg235 : MqttMessage := { topic := "sensors/temp", payload := "23.5" }

/-- A protobuf decoder for which every payload fails to parse
(ParseFromString raises on every input). -/
def decodeFailAll : String → Option String := fun _ => none

/-- The payload the sample end-to-end run delivers: sequence id 1 (counter
started at 0), ship zod, destination nest D, message 23.5, signature via
sensors/temp, sent 0. -/
def payloadD : UrbitPayload :=
  { id := 1
    action := "poke"
    ship := "zod"
    app := "channels"
    mark := "channel-action"
    nest := "D"
    author := "~zod"
    sent := 0
    message := "23.5"
    signature := "via sensors/temp" }

theorem build_middleware_stack_cons {D R : Type} (c : MWClass D R) (cs : List (MWClass D R))
    (core : D → R) :
    build_middleware_stack (c :: cs) core = c (build_middleware_stack cs core) := by
  simp [build_middleware_stack, List.reverse_cons, List.foldl_append]

/-- Claim C1: for every configured list of N middleware stages, the chain
composed by build_middleware_stack runs the stages in declared order at
execution time — stage 1 is the outermost and sees the raw input, each
stage receives the output of the previous one (a left fold of the
transforms over the input, in list order), and the innermost next handler
is the core — despite the stack being constructed by walking the list in
reverse. -/
theorem build_declared_order {D R : Type} (fs : List (D → D)) (core : D → R) (input : D) :
    build_middleware_stack (fs.map mkTransformMW) core input
      = core (fs.foldl (fun d f => f d) input) := by
  induction fs generalizing input with
  | nil => rfl
  | cons f fs ih =>
      rw [List.map_cons, build_middleware_stack_cons]
      simpa [mkTransformMW] using ih (f input)

theorem applyOps_stack {D : Type} (ops : List (PipeOp D)) :
    ∀ st : PipelineState D, (applyOps st ops).middleware_stack = st.middleware_stack := by
  induction ops with
  | nil => intro st; rfl
  | cons op ops ih =>
      intro st
      have hstep : applyOps st (op :: ops) = applyOps (applyOp st op) ops := rfl
      rw [hstep, ih]
      cases op <;> rfl

theorem process_with_built {D : Type} (st : PipelineState D) (chain : D → D) (d : D)
    (h : st.middleware_stack = some chain) :
    Pipeline.process st d = (chain d, st) := by
  simp [Pipeline.process, h]

/-- Claim C8: the composed middleware stack is built at most once, lazily
on the first process call, and is immutable thereafter: starting from an
unbuilt pipeline, the first process call stores the stack composed from
the middleware classes present at that moment, and after any sequence of
add_middleware calls or config reassignments the stored stack is unchanged
and a later process call invokes exactly that original chain without
rebuilding. -/
theorem pipeline_build_once_immutable {D : Type} (cls : List (MWClass D D))
    (cfg : List (String × String)) (d0 d1 : D) (ops : List (PipeOp D)) :
    (Pipeline.process ⟨none, cls, cfg⟩ d0).2.middleware_stack
      = some (build_middleware_stack cls Pipeline.process_core) ∧
    (applyOps (Pipeline.process ⟨none, cls, cfg⟩ d0).2 ops).middleware_stack
      = some (build_middleware_stack cls Pipeline.process_core) ∧
    Pipeline.process (applyOps (Pipeline.process ⟨none, cls, cfg⟩ d0).2 ops) d1
      = (build_middleware_stack cls Pipeline.process_core d1,
         applyOps (Pipeline.process ⟨none, cls, cfg⟩ d0).2 ops) := by
  have h0 : (Pipeline.process (⟨none, cls, cfg⟩ : PipelineState D) d0).2.middleware_stack
      = some (build_middleware_stack cls Pipeline.process_core) := rfl
  have h1 := applyOps_stack ops (Pipeline.process (⟨none, cls, cfg⟩ : PipelineState D) d0).2
  rw [h0] at h1
  exact ⟨h0, h1, process_with_built _ _ d1 h1⟩

theorem sendLoop_cons_status {β : Type} (sink : Nat → SinkResp) (url : String) (body : β)
    (k d a c : Nat) (rest : List Nat) (ha : sink a = SinkResp.status c) :
    sendLoop sink url body k d (a :: rest)
      = ([SendEvent.put a url body (SinkResp.status c)],
         (if 200 ≤ c ∧ c < 300 then SendOutcome.success else SendOutcome.rejected),
         none) := by
  simp only [sendLoop, ha]

theorem sendLoop_cons_transport {β : Type} (sink : Nat → SinkResp) (url : String) (body : β)
    (k d a : Nat) (rest : List Nat) (ha : sink a = SinkResp.transportError) :
    sendLoop sink url body k d (a :: rest)
      = (if a < k - 1 then
           (SendEvent.put a url body SinkResp.transportError ::
              SendEvent.sleep d :: (sendLoop sink url body k d rest).1,
            (sendLoop sink url body k d rest).2)
         else
           (SendEvent.put a url body SinkResp.transportError ::
              (sendLoop sink url body k d rest).1,
            (sendLoop sink url body k d rest).2)) := by
  simp only [sendLoop, ha]

theorem sendLoop_all_transport {β : Type} (sink : Nat → SinkResp) (url : String) (body : β)
    (k d : Nat) (hs : ∀ i, sink i = SinkResp.transportError) :
    ∀ n i, i + n = k →
      sendLoop sink url body k d (List.range' i n)
        = (transportFailEvents url body d i n, SendOutcome.exhausted, none) := by
  intro n
  induction n with
  | zero => intro i hik; rfl
  | succ m ih =>
      intro i hik
      rw [List.range'_succ, sendLoop_cons_transport sink url body k d i _ (hs i)]
      cases m with
      | zero =>
          have hni : ¬ i < k - 1 := by omega
          rw [if_neg hni]
          rfl
      | succ m2 =>
          have hyi : i < k - 1 := by omega
          have htail := ih (i + 1) (by omega)
          rw [if_pos hyi, htail]
          rfl

theorem sendLoop_first_status {β : Type} (sink : Nat → SinkResp) (url : String) (body : β)
    (k d j c : Nat) (hj : ∀ i, i < j → sink i = SinkResp.transportError)
    (hc : sink j = SinkResp.status c) :
    ∀ n i, i + n = k → i ≤ j → j < k →
      sendLoop sink url body k d (List.range' i n)
        = (transportRetryEvents url body d i (j - i)
             ++ [SendEvent.put j url body (SinkResp.status c)],
           (if 200 ≤ c ∧ c < 300 then SendOutcome.success else SendOutcome.rejected),
           none) := by
  intro n
  induction n with
  | zero => intro i hik hij hjk; omega
  | succ m ih =>
      intro i hik hij hjk
      rw [List.range'_succ]
      by_cases hii : i = j
      · subst hii
        rw [sendLoop_cons_status sink url body k d i c _ hc, Nat.sub_self]
        rfl
      · have hilt : i < j := by omega
        have hi1 : i < k - 1 := by omega
        have htail := ih (i + 1) (by omega) (by omega) hjk
        have hji : j - i = (j - (i + 1)) + 1 := by omega
        rw [sendLoop_cons_transport sink url body k d i _ (hj i hilt), if_pos hi1, htail,
          hji]
        rfl

/-- Claim C2: for every delivery configuration with attempt budget
retries = k ≥ 1 and any retry_delay: if every attempt fails with a
transport error, send_to_rest_endpoint makes exactly k attempts
(indices 0..k-1) with one sleep of retry_delay between consecutive
attempts and none after the last, and logs exhausted retries; if the
first attempt that receives any HTTP status receives a non-2xx status at
index j, the j earlier transport failures are retried but attempt j is
the last (the rejection is logged, not retried); if that first status is
2xx, the outcome is success and attempt j is likewise the last. -/
theorem send_retry_semantics {β : Type} (cfg : RestConfig) (sink : Nat → SinkResp)
    (body : β) (k : Nat) (hcfg : cfg.retries = some k) (hk : 1 ≤ k) :
    ((∀ i, sink i = SinkResp.transportError) →
       send_to_rest_endpoint cfg sink body
         = Except.ok
             (transportFailEvents (cfg.host ++ "/" ++ cfg.path) body cfg.retry_delay 0 k,
              SendOutcome.exhausted, none)) ∧
    (∀ j c, j < k → (∀ i, i < j → sink i = SinkResp.transportError) →
       sink j = SinkResp.status c → ¬ (200 ≤ c ∧ c < 300) →
       send_to_rest_endpoint cfg sink body
         = Except.ok
             (transportRetryEvents (cfg.host ++ "/" ++ cfg.path) body cfg.retry_delay 0 j
                ++ [SendEvent.put j (cfg.host ++ "/" ++ cfg.path) body (SinkResp.status c)],
              SendOutcome.rejected, none)) ∧
    (∀ j c, j < k → (∀ i, i < j → sink i = SinkResp.transportError) →
       sink j = SinkResp.status c → (200 ≤ c ∧ c < 300) →
       send_to_rest_endpoint cfg sink body
         = Except.ok
             (transportRetryEvents (cfg.host ++ "/" ++ cfg.path) body cfg.retry_delay 0 j
                ++ [SendEvent.put j (cfg.host ++ "/" ++ cfg.path) body (SinkResp.status c)],
              SendOutcome.success, none)) := by
  have hsend : send_to_rest_endpoint cfg sink body
      = Except.ok (sendLoop sink (cfg.host ++ "/" ++ cfg.path) body k cfg.retry_delay
          (List.range k)) := by
    rw [send_to_rest_endpoint, hcfg]
  refine ⟨?_, ?_, ?_⟩
  · intro hs
    rw [hsend, List.range_eq_range',
      sendLoop_all_transport sink _ body k cfg.retry_delay hs k 0 (by omega)]
  · intro j c hjk hj hc hnc
    rw [hsend, List.range_eq_range',
      sendLoop_first_status sink _ body k cfg.retry_delay j c hj hc k 0 (by omega)
        (by omega) hjk, Nat.sub_zero, if_neg hnc]
  · intro j c hjk hj hc hyc
    rw [hsend, List.range_eq_range',
      sendLoop_first_status sink _ body k cfg.retry_delay j c hj hc k 0 (by omega)
        (by omega) hjk, Nat.sub_zero, if_pos hyc]

/-- Witness for C2 at retries = 3, retry_delay = 1, url host/path, body 7:
an always-failing sink gives three attempts with two interleaved sleeps
and exhausted retries; a sink answering 404 on the first attempt gives one
attempt and a rejection; a sink answering 200 on the first attempt gives
one attempt and success. -/
theorem send_retry_semantics_w :
    (send_to_rest_endpoint restCfgD sinkFail (7 : Nat)
      = Except.ok
          ([SendEvent.put 0 "host/path" 7 SinkResp.transportError, SendEvent.sleep 1,
            SendEvent.put 1 "host/path" 7 SinkResp.transportError, SendEvent.sleep 1,
            SendEvent.put 2 "host/path" 7 SinkResp.transportError],
           SendOutcome.exhausted, none)) ∧
    (send_to_rest_endpoint restCfgD sink404 (7 : Nat)
      = Except.ok ([SendEvent.put 0 "host/path" 7 (SinkResp.status 404)],
           SendOutcome.rejected, none)) ∧
    (send_to_rest_endpoint restCfgD sink200 (7 : Nat)
      = Except.ok ([SendEvent.put 0 "host/path" 7 (SinkResp.status 200)],
           SendOutcome.success, none)) := by
  refine ⟨?_, ?_, ?_⟩
  · exact (send_retry_semantics restCfgD sinkFail 7 3 rfl (by decide)).1 (fun i => rfl)
  · exact (send_retry_semantics restCfgD sink404 7 3 rfl (by decide)).2.1 0 404
      (by decide) (fun i h => absurd h (Nat.not_lt_zero i)) rfl (by decide)
  · exact (send_retry_semantics restCfgD sink200 7 3 rfl (by decide)).2.2 0 200
      (by decide) (fun i h => absurd h (Nat.not_lt_zero i)) rfl (by decide)

theorem sendLoop_ret_none {β : Type} (sink : Nat → SinkResp) (url : String) (body : β)
    (k d : Nat) : ∀ l, (sendLoop sink url body k d l).2.2 = none := by
  intro l
  induction l with
  | nil => rfl
  | cons a rest ih =>
      cases ha : sink a with
      | status c => rw [sendLoop_cons_status sink url body k d a c rest ha]
      | transportError =>
          rw [sendLoop_cons_transport sink url body k d a rest ha]
          by_cases h : a < k - 1
          · rw [if_pos h]; exact ih
          · rw [if_neg h]; exact ih

/-- Claim C10: whenever send_to_rest_endpoint returns normally (the
retries key is configured), RestPutMiddleware.__call__ invokes the next
handler with None — the return value of send_to_rest_endpoint — for every
sink behavior and payload, so the value the chain returns is next applied
to None: neither the delivered body nor the delivery outcome is
observable downstream or in the returned value. -/
theorem restput_forwards_none {β ρ : Type} (cfg : RestConfig) (sink : Nat → SinkResp)
    (body : β) (k : Nat) (hcfg : cfg.retries = some k) (next : Option β → ρ) :
    Except.map (fun t => t.2.2) (RestPutMiddleware.call cfg sink body next)
      = Except.ok (next none) := by
  have hret := sendLoop_ret_none sink (cfg.host ++ "/" ++ cfg.path) body k cfg.retry_delay
    (List.range k)
  simp only [RestPutMiddleware.call, send_to_rest_endpoint, hcfg]
  rw [show (sendLoop sink (cfg.host ++ "/" ++ cfg.path) body k cfg.retry_delay
        (List.range k))
      = ((sendLoop sink (cfg.host ++ "/" ++ cfg.path) body k cfg.retry_delay
          (List.range k)).1,
         (sendLoop sink (cfg.host ++ "/" ++ cfg.path) body k cfg.retry_delay
          (List.range k)).2.1,
         (sendLoop sink (cfg.host ++ "/" ++ cfg.path) body k cfg.retry_delay
          (List.range k)).2.2) from rfl, hret]
  rfl

/-- Witness for C10: with the sample delivery configuration, a 200-sink
and the identity next handler, the chain-visible value is ok None. -/
theorem restput_forwards_none_w :
    Except.map (fun t => t.2.2)
        (RestPutMiddleware.call restCfgD sink200 (5 : Nat) (fun r => r))
      = Except.ok (none : Option Nat) :=
  restput_forwards_none restCfgD sink200 5 3 rfl (fun r => r)

theorem tlon_format_fst (cfg : TlonConfig) (m : MqttMessage) (p now : Nat) :
    (tlon_format cfg m (some p) now).1 = some (p + 1) := by
  cases hl : List.lookup m.topic cfg.urbit_channel_map <;> simp [tlon_format, hl]

theorem tlon_format_ok_id (cfg : TlonConfig) (m : MqttMessage) (p now : Nat)
    (payload : UrbitPayload) (h : (tlon_format cfg m (some p) now).2 = Except.ok payload) :
    payload.id = p + 1 := by
  cases hl : List.lookup m.topic cfg.urbit_channel_map with
  | none => simp [tlon_format, hl] at h
  | some entry =>
      simp [tlon_format, hl] at h
      rw [← h]

/-- Counterexample to claim C3 as stated: for the message with unmapped
topic unmapped/topic under the sample configuration (which only maps
sensors/temp), the format stage does not log-and-drop — a KeyError
escapes TlonFormatMiddleware.__call__ (and the sequence counter is still
incremented), contradicting the asserted "no exception escapes the
stage". -/
theorem tlon_unmapped_topic_cx :
    TlonFormatMiddleware.call tlonCfgD
        { topic := "unmapped/topic", payload := "x" } (some 0) 0 (fun _ _ => (0 : Nat))
      = (some 1, Except.error (PyErr.keyError "unmapped/topic")) := rfl

/-- Claim C3 amended: for every message whose topic has no entry in
urbit_channel_map, the format stage never invokes the next handler (the
result is the same for every next handler), so no delivery attempt
reaches the sink; but instead of a logged recoverable drop, a KeyError
for the topic escapes the stage, with the sequence counter already
incremented. -/
theorem tlon_unmapped_topic_raises {ρ : Type} (cfg : TlonConfig) (data : MqttMessage)
    (p now : Nat) (h : List.lookup data.topic cfg.urbit_channel_map = none)
    (next : UrbitPayload → ChannelEntry → ρ) :
    TlonFormatMiddleware.call cfg data (some p) now next
      = (some (p + 1), Except.error (PyErr.keyError data.topic)) := by
  simp [TlonFormatMiddleware.call, tlon_format, h]

/-- Witness for amended C3 at a concrete unmapped topic and a next handler
of a different result type than the counterexample uses. -/
theorem tlon_unmapped_topic_raises_w :
    TlonFormatMiddleware.call tlonCfgD
        { topic := "no/such/topic", payload := "y" } (some 5) 9 (fun p _ => p)
      = (some 6, Except.error (PyErr.keyError "no/such/topic")) :=
  tlon_unmapped_topic_raises tlonCfgD { topic := "no/such/topic", payload := "y" } 5 9
    rfl (fun p _ => p)

/-- Counterexample to claim C4 as stated: with a decoder for which every
payload fails protobuf parsing, MeshtasticMiddleware.__call__ on a sample
message still invokes the next handler — here the next handler reports the
envelope it was handed together with the marker 1 counting its invocation
— rather than short-circuiting with a dropped sentinel and zero next-handler
calls. -/
theorem meshtastic_decode_failure_cx :
    MeshtasticMiddleware.call decodeFailAll (fun e => (e, 1))
        { topic := "msh/2/e", payload := "bad-bytes" }
      = (Envelope.empty, 1) := rfl

/-- Claim C4 amended: for every input whose payload bytes fail protobuf
decoding, the decode stage logs the failure and raises no exception, but
it does not short-circuit: __call__ forwards the freshly initialized
empty envelope to the next handler, so the chain (and any delivery stage
downstream) still runs. -/
theorem meshtastic_decode_forwards_empty {ρ : Type} (decode : String → Option String)
    (data : MqttMessage) (h : decode data.payload = none) (next : Envelope → ρ) :
    MeshtasticMiddleware.call decode next data = next Envelope.empty := by
  simp [MeshtasticMiddleware.call, MeshtasticMiddleware.parse, h]

/-- Witness for amended C4 at a concrete failing payload with the identity
next handler. -/
theorem meshtastic_decode_forwards_empty_w :
    MeshtasticMiddleware.call decodeFailAll (fun e => e)
        { topic := "a/b", payload := "zz" }
      = Envelope.empty :=
  meshtastic_decode_forwards_empty decodeFailAll { topic := "a/b", payload := "zz" }
    rfl (fun e => e)

theorem okIds_cons_error (e : PyErr) (rs : List (Except PyErr UrbitPayload)) :
    okIds (Except.error e :: rs) = okIds rs := rfl

theorem okIds_cons_ok (p : UrbitPayload) (rs : List (Except PyErr UrbitPayload)) :
    okIds (Except.ok p :: rs) = p.id :: okIds rs := rfl

theorem tlon_format_run_cons (cfg : TlonConfig) (now : Nat) (st : Option Nat)
    (m : MqttMessage) (rest : List MqttMessage) :
    tlon_format_run cfg now st (m :: rest)
      = ((tlon_format cfg m st now).2
           :: (tlon_format_run cfg now (tlon_format cfg m st now).1 rest).1,
         (tlon_format_run cfg now (tlon_format cfg m st now).1 rest).2) := rfl

theorem tlon_run_ids_invariant (cfg : TlonConfig) (now : Nat) :
    ∀ (msgs : List MqttMessage) (p : Nat),
      (∀ i ∈ okIds (tlon_format_run cfg now (some p) msgs).1, p < i) ∧
      List.Pairwise (· < ·) (okIds (tlon_format_run cfg now (some p) msgs).1) := by
  intro msgs
  induction msgs with
  | nil =>
      intro p
      refine ⟨?_, List.Pairwise.nil⟩
      intro i hi
      cases hi
  | cons m rest ih =>
      intro p
      rw [tlon_format_run_cons, tlon_format_fst]
      obtain ⟨ihBound, ihPair⟩ := ih (p + 1)
      cases hr : (tlon_format cfg m (some p) now).2 with
      | error e =>
          rw [okIds_cons_error]
          exact ⟨fun i hi => Nat.lt_of_succ_lt (ihBound i hi), ihPair⟩
      | ok payload =>
          have hid : payload.id = p + 1 := tlon_format_ok_id cfg m p now payload hr
          rw [okIds_cons_ok, hid]
          constructor
          · intro i hi
            cases hi with
            | head => omega
            | tail _ hmem => exact Nat.lt_of_succ_lt (ihBound i hmem)
          · exact List.Pairwise.cons (fun i hmem => ihBound i hmem) ihPair

/-- Claim C7: for every sequence of messages processed through the format
stage within one process lifetime, starting from a counter initialized
(to any value p) before the first message is formatted, the sequence
identifiers assigned to the produced payloads are pairwise distinct and
strictly increasing in assignment order, and all exceed the initial
counter value. -/
theorem tlon_ids_strictly_increasing (cfg : TlonConfig) (now p : Nat)
    (msgs : List MqttMessage) :
    List.Pairwise (· < ·) (okIds (tlon_format_run cfg now (some p) msgs).1) ∧
    List.Pairwise (· ≠ ·) (okIds (tlon_format_run cfg now (some p) msgs).1) ∧
    ∀ i ∈ okIds (tlon_format_run cfg now (some p) msgs).1, p < i := by
  obtain ⟨hBound, hPair⟩ := tlon_run_ids_invariant cfg now msgs p
  exact ⟨hPair, hPair.imp (fun h => Nat.ne_of_lt h), hBound⟩

/-- Counterexample to claim C5 as stated: a message whose topic is not in
urbit_channel_map makes Pipeline.process on the built
[TlonFormatMiddleware, RestPutMiddleware] chain raise a KeyError to its
caller — the error is not caught, logged and converted into a returned
terminal result. -/
theorem process_unmapped_raises_cx :
    (process_tlon_rest tlonCfgD restCfgD sink200 (some 0) 0
        { topic := "other/topic", payload := "x" }).2
      = Except.error (PyErr.keyError "other/topic") := rfl

/-- Claim C5 amended: sink-side errors never escape — for every sink
behavior (2xx, non-2xx, transport errors in any pattern), a process call
on the built chain returns normally, provided the topic is mapped, the
sequence counter is initialized, and the retries key is configured; but
stage errors such as the unmapped-topic KeyError are NOT caught and
propagate out of Pipeline.process. -/
theorem process_sink_errors_contained (tlonCfg : TlonConfig) (restCfg : RestConfig)
    (sink : Nat → SinkResp) (p now : Nat) (data : MqttMessage) (entry : ChannelEntry)
    (k : Nat) (hmap : List.lookup data.topic tlonCfg.urbit_channel_map = some entry)
    (hret : restCfg.retries = some k) :
    isOkExcept (process_tlon_rest tlonCfg restCfg sink (some p) now data).2 = true := by
  simp [process_tlon_rest, TlonFormatMiddleware.call, tlon_format, hmap,
    RestPutMiddleware.call, send_to_rest_endpoint, hret, isOkExcept]

/-- Witness for amended C5: with the sample configuration and a sink that
always fails transport, process still returns normally. -/
theorem process_sink_errors_contained_w :
    isOkExcept (process_tlon_rest tlonCfgD restCfgD sinkFail (some 0) 0 msg235).2
      = true :=
  process_sink_errors_contained tlonCfgD restCfgD sinkFail 0 0 msg235
    { nest := "D" } 3 rfl rfl

/-- Counterexample to claim C6 as stated: in the end-to-end scenario
(topic sensors/temp mapped to destination D, sink answering 200 first),
Pipeline.process does not return a Success result: the chain-returned
value is None, exactly as it is when the sink rejects with 404 — the
outcome differs only in the logged classification, never in the returned
value. -/
theorem process_returns_none_cx :
    (process_tlon_rest tlonCfgD restCfgD sink200 (some 0) 0 msg235).2
      = Except.ok ([SendEvent.put 0 "host/path" payloadD (SinkResp.status 200)],
          SendOutcome.success, none) ∧
    (process_tlon_rest tlonCfgD restCfgD sink404 (some 0) 0 msg235).2
      = Except.ok ([SendEvent.put 0 "host/path" payloadD (SinkResp.status 404)],
          SendOutcome.rejected, none) := ⟨rfl, rfl⟩

/-- Claim C6 amended: for the input message topic sensors/temp, payload
23.5, with sensors/temp mapped to destination D and a sink returning 200
on the first call, Pipeline.process completes without exception, the sink
is called exactly once with a body whose message reflects payload 23.5
and whose nest is destination D, the logged outcome is Success — but the
value process returns is None, not a Success result. -/
theorem process_end_to_end_scenario :
    process_tlon_rest tlonCfgD restCfgD sink200 (some 0) 0 msg235
      = (some 1, Except.ok
          ([SendEvent.put 0 "host/path" payloadD (SinkResp.status 200)],
           SendOutcome.success, none)) := rfl

/-- Counterexample to claim C9 as stated: with the retries key missing
from the RestPutMiddleware slice, building the middleware stack succeeds
without reporting any configuration error, and the first process call is
the first point of failure, raising TypeError from range(None). -/
theorem build_missing_retries_cx :
    build_tlon_rest cfgMissingRetries = Except.ok (tlonCfgD, restCfgNoRetries) ∧
    (process_tlon_rest tlonCfgD restCfgNoRetries sink200 (some 0) 0 msg235).2
      = Except.error PyErr.typeError := ⟨rfl, rfl⟩

/-- Claim C9 amended: a missing required key is NOT surfaced at build
time: building the stack always succeeds (Middleware.__init__ extracts
config slices without validation), and with the delivery-stage retries
key missing the failure first occurs during message processing, as a
TypeError from range(None). -/
theorem config_failure_at_process_time (cfg : GlobalConfig) (sink : Nat → SinkResp)
    (p now : Nat) (data : MqttMessage) (entry : ChannelEntry)
    (hmap : List.lookup data.topic cfg.tlonFormatSlice.urbit_channel_map = some entry)
    (hret : cfg.restPutSlice.retries = none) :
    isOkExcept (build_tlon_rest cfg) = true ∧
    (process_tlon_rest cfg.tlonFormatSlice cfg.restPutSlice sink (some p) now data).2
      = Except.error PyErr.typeError := by
  constructor
  · rfl
  · simp [process_tlon_rest, TlonFormatMiddleware.call, tlon_format, hmap,
      RestPutMiddleware.call, send_to_rest_endpoint, hret]

/-- Witness for amended C9 at the sample configuration missing retries. -/
theorem config_failure_at_process_time_w :
    isOkExcept (build_tlon_rest cfgMissingRetries) = true ∧
    (process_tlon_rest cfgMissingRetries.tlonFormatSlice cfgMissingRetries.restPutSlice
        sink404 (some 2) 7 msg235).2
      = Except.error PyErr.typeError :=
  config_failure_at_process_time cfgMissingRetries sink404 2 7 msg235
    { nest := "D" } rfl rfl
